import Mathlib

/-!
Verification of the alert evaluation engine of the energy-monitoring
backend (`src/api/routers/alerts.py`).

The embedding models the relational state touched by the alerts router as
lists of rows and translates the Python functions `_compare`,
`evaluate_alerts` and `acknowledge_event` into pure Lean functions over
that state.  Numeric SQL/float values are modelled as rationals and
timestamps as integers (seconds); both orders are the ones the source
comparisons use.  Id columns (uuids) are modelled as strings; the serial
id of `alert_events` is modelled by a `nextEventId` counter on the state,
standing for the global Postgres sequence.
-/

namespace AlertsRouter

/-- Row of the `alerts` table, restricted to the columns the evaluation
pass selects (`id, device_id, name, alert_type, metric, comparison,
threshold, window_seconds, cooldown_seconds`) plus the two columns its
`WHERE` clause reads (`user_id`, `is_enabled`).  `threshold`,
`window_seconds` and `cooldown_seconds` are nullable in the source's
defensive handling, hence `Option`. -/
structure Alert where
  id : String
  user_id : String
  device_id : Option String
  name : String
  alert_type : String
  metric : String
  comparison : String
  threshold : Option Rat
  window_seconds : Option Int
  cooldown_seconds : Option Int
  is_enabled : Bool
deriving DecidableEq

/-- Row of the `devices` table, restricted to the columns the evaluation
pass touches (`SELECT id FROM devices WHERE user_id=%s AND is_active=true`). -/
structure Device where
  id : String
  user_id : String
  is_active : Bool
deriving DecidableEq

/-- Row of the `energy_readings` table, restricted to the columns the
evaluation pass selects (`ts, power_w, voltage_v, current_a, energy_wh`)
plus the `WHERE` columns (`user_id`, `device_id`).  The four metric
columns are nullable floats. -/
structure Reading where
  user_id : String
  device_id : String
  ts : Int
  power_w : Option Rat
  voltage_v : Option Rat
  current_a : Option Rat
  energy_wh : Option Rat
deriving DecidableEq

/-- Row of the `alert_events` table, restricted to the columns the alerts
router reads or writes.  `ts` is stamped at insertion time (the table
default; the DDL lives outside this repository and the spec defines the
event timestamp as the creation time).  `resolved_at`/`created_at` are
never read or written by the router's logic and are omitted. -/
structure AlertEvent where
  id : Nat
  user_id : String
  alert_id : String
  device_id : String
  ts : Int
  status : String
  message : String
  metric_value : Option Rat
  acknowledged_at : Option Int
deriving DecidableEq

/-- The relational state the alerts router touches.  `nextEventId` models
the Postgres serial sequence backing `alert_events.id` (global, not
per-owner). -/
structure DB where
  alerts : List Alert
  devices : List Device
  readings : List Reading
  events : List AlertEvent
  nextEventId : Nat
deriving DecidableEq

/-- Python `_compare(value, op, threshold)`: the if-chain over the six
comparison operators; any other operator string yields `False`. -/
def _compare (value : Rat) (op : String) (threshold : Rat) : Bool :=
  if op = "gt" then decide (value > threshold)
  else if op = "gte" then decide (value ≥ threshold)
  else if op = "lt" then decide (value < threshold)
  else if op = "lte" then decide (value ≤ threshold)
  else if op = "eq" then decide (value = threshold)
  else if op = "neq" then decide (value ≠ threshold)
  else false

/-- Python `latest.get(metric)`: dictionary lookup of the metric name in
the selected reading row.  The four numeric metric columns are the
metric domain; any other key yields `None` (the row's only further key,
`ts`, is a timestamp, not a numeric metric, and is outside the metric
name domain used by the router). -/
def Reading.getMetric (r : Reading) (m : String) : Option Rat :=
  if m = "power_w" then r.power_w
  else if m = "voltage_v" then r.voltage_v
  else if m = "current_a" then r.current_a
  else if m = "energy_wh" then r.energy_wh
  else none

/-- Python `int(a["cooldown_seconds"] or 0)`: `NULL` falls back to 0, and
a stored 0 is Python-falsy but `0 or 0` is 0 as well, so this is exactly
`getD 0`. -/
def cooldownSecs (a : Alert) : Int :=
  a.cooldown_seconds.getD 0

/-- Python `int(a["window_seconds"] or 900)`: both `NULL` and a stored 0
fall back to 900 (0 is Python-falsy). -/
def windowSecs (a : Alert) : Int :=
  match a.window_seconds with
  | none => 900
  | some w => if w = 0 then 900 else w

/-- One step of the `ORDER BY ts DESC LIMIT 1` maximum: keep the larger
timestamp. -/
def maxTsStep (acc : Option Int) (t : Int) : Option Int :=
  match acc with
  | none => some t
  | some b => if t > b then some t else some b

/-- The cooldown query: most recent `ts` among events of this exact
(owner, rule, device) triple whose status is `triggered` or `suppressed`
(`ORDER BY ts DESC LIMIT 1`; only the `ts` column of the selected row is
ever read, so the model returns the maximal `ts`). -/
def mostRecentCooldownTs (events : List AlertEvent) (uid aid did : String) : Option Int :=
  (events.filter (fun e =>
      e.user_id == uid && e.alert_id == aid && e.device_id == did &&
      (e.status == "triggered" || e.status == "suppressed"))).foldl
    (fun acc e => maxTsStep acc e.ts)
    none

/-- The latest-reading query for (owner, device) (`ORDER BY ts DESC LIMIT
1`).  Among rows tied on `ts` SQL leaves the choice unspecified; the
model keeps the first-listed maximal row. -/
def latestReading (readings : List Reading) (uid did : String) : Option Reading :=
  (readings.filter (fun r => r.user_id == uid && r.device_id == did)).foldl
    (fun acc r =>
      match acc with
      | none => some r
      | some b => if r.ts > b.ts then some r else some b)
    none

/-- The cooldown guard of the evaluation loop: a recent triggered or
suppressed event exists and `now - last_ts < timedelta(seconds=cooldown)`.
(The source additionally guards `last_ts and ...`; a datetime is always
truthy in Python and the column is non-null, so that guard is inert.) -/
def isSuppressed (events : List AlertEvent) (now : Int) (uid : String) (a : Alert)
    (did : String) : Bool :=
  match mostRecentCooldownTs events uid a.id did with
  | some t => decide (now - t < cooldownSecs a)
  | none => false

/-- Append an event row; the serial id is drawn from the sequence. -/
def insertEvent (db : DB) (e : AlertEvent) : DB :=
  { db with events := db.events ++ [e], nextEventId := db.nextEventId + 1 }

/-- Message of an offline trigger:
`f"Device offline (no reading within {window}s)"`. -/
def offlineMessage (w : Int) : String :=
  "Device offline (no reading within " ++ toString w ++ "s)"

/-- Rendering of the stored numeric threshold inside the trigger message
(`f"... {a['threshold']}"`): Postgres numeric values arrive as decimals
whose string form prints integral values without a fractional part. -/
def renderNum (q : Rat) : String :=
  if q.den = 1 then toString q.num else toString q

/-- Message of a threshold/anomaly trigger:
`f"{metric} {a['comparison']} {a['threshold']}"`. -/
def thresholdMessage (metric op : String) (t : Rat) : String :=
  metric ++ " " ++ op ++ " " ++ renderNum t

/-- The offline event row inserted by the pass (columns
`user_id, alert_id, device_id, status='triggered', message`; `ts` is the
insertion-time default, `metric_value` stays null). -/
def mkOfflineEvent (db : DB) (now : Int) (uid aid did : String) (w : Int) : AlertEvent :=
  { id := db.nextEventId, user_id := uid, alert_id := aid, device_id := did,
    ts := now, status := "triggered", message := offlineMessage w,
    metric_value := none, acknowledged_at := none }

/-- The threshold/anomaly event row inserted by the pass (columns
`user_id, alert_id, device_id, status='triggered', message, metric_value`). -/
def mkThresholdEvent (db : DB) (now : Int) (uid aid did : String) (metric op : String)
    (t v : Rat) : AlertEvent :=
  { id := db.nextEventId, user_id := uid, alert_id := aid, device_id := did,
    ts := now, status := "triggered", message := thresholdMessage metric op t,
    metric_value := some v, acknowledged_at := none }

/-- Body of the inner loop of `evaluate_alerts` for one (rule, device)
pair: cooldown check, latest-reading fetch, branch on the rule kind,
threading the state and the `triggered_count` accumulator. -/
def evalPair (now : Int) (uid : String) (a : Alert) (did : String)
    (st : DB × Nat) : DB × Nat :=
  let db := st.1
  let cnt := st.2
  if isSuppressed db.events now uid a did then (db, cnt)
  else
    let latest := latestReading db.readings uid did
    if a.alert_type = "offline" then
      let w := windowSecs a
      let stale : Bool :=
        match latest with
        | none => true
        | some r => decide (now - r.ts > w)
      if stale then (insertEvent db (mkOfflineEvent db now uid a.id did w), cnt + 1)
      else (db, cnt)
    else
      match latest with
      | none => (db, cnt)
      | some r =>
        match r.getMetric a.metric, a.threshold with
        | some v, some t =>
          if _compare v a.comparison t then
            (insertEvent db (mkThresholdEvent db now uid a.id did a.metric a.comparison t v),
             cnt + 1)
          else (db, cnt)
        | _, _ => (db, cnt)

/-- The rules query: `SELECT ... FROM alerts WHERE user_id=%s AND
is_enabled=true`. -/
def enabledAlerts (db : DB) (uid : String) : List Alert :=
  db.alerts.filter (fun a => a.user_id == uid && a.is_enabled)

/-- The device query of the unscoped branch: `SELECT id FROM devices
WHERE user_id=%s AND is_active=true`, projected to the id column. -/
def activeDeviceIds (devices : List Device) (uid : String) : List String :=
  (devices.filter (fun d => d.user_id == uid && d.is_active)).map (fun d => d.id)

/-- Target device list of one rule: `[a["device_id"]]` when the rule is
scoped (uuids are nonempty strings, so Python truthiness coincides with
presence), else the active devices of the owner. -/
def targetDevices (db : DB) (uid : String) (a : Alert) : List String :=
  match a.device_id with
  | some d => [d]
  | none => activeDeviceIds db.devices uid

/-- The nested loops of `evaluate_alerts`, folding `evalPair` over each
rule's target devices (the device query runs against the threaded state,
as in the source; only the events component ever changes). -/
def runRules (now : Int) (uid : String) (alerts : List Alert) (st : DB × Nat) : DB × Nat :=
  alerts.foldl
    (fun st a => (targetDevices st.1 uid a).foldl (fun st2 did => evalPair now uid a did st2) st)
    st

/-- Python `evaluate_alerts` for one owner: fetch the enabled rules, run
the loops, return the final state, the triggered count and the response
message. -/
def evaluate_alerts (db : DB) (now : Int) (uid : String) : DB × Nat × String :=
  let r := runRules now uid (enabledAlerts db uid) (db, 0)
  (r.1, r.2, "Evaluated alerts. Triggered " ++ toString r.2 ++ " events.")

/-- Result of the acknowledge endpoint: the 200 message or the 404. -/
inductive AckResult where
  | ok (message : String)
  | notFound (detail : String)
deriving DecidableEq

/-- Python `acknowledge_event`: `UPDATE alert_events SET
status='acknowledged', acknowledged_at=now() WHERE id=%s AND user_id=%s`;
404 when the affected rowcount is 0, else the `Acknowledged` message.
The `WHERE` clause matches on id and owner only — it does not constrain
the current status. -/
def acknowledge_event (db : DB) (now : Int) (eventId : Nat) (uid : String) :
    DB × AckResult :=
  let affected := (db.events.filter (fun e => e.id == eventId && e.user_id == uid)).length
  let db' := { db with events := db.events.map (fun e =>
      if e.id == eventId && e.user_id == uid then
        { e with status := "acknowledged", acknowledged_at := some now }
      else e) }
  if affected = 0 then (db', AckResult.notFound "Event not found")
  else (db', AckResult.ok "Acknowledged")

/-- Restriction of the state to one owner's rows (the sequence counter is
global database machinery, not owner data, and is kept). -/
def DB.restrict (db : DB) (uid : String) : DB :=
  { alerts := db.alerts.filter (fun a => a.user_id == uid),
    devices := db.devices.filter (fun d => d.user_id == uid),
    readings := db.readings.filter (fun r => r.user_id == uid),
    events := db.events.filter (fun e => e.user_id == uid),
    nextEventId := db.nextEventId }

/-- Pydantic constraint on `AlertBase.window_seconds` (`ge=1` in
`schemas.py`): a stored window, when present, is at least 1. -/
def validWindow (w : Option Int) : Bool :=
  match w with
  | none => true
  | some v => decide (1 ≤ v)

/-- Fixture: a scoped offline rule (window 900 s, cooldown 300 s). -/
def exOffAlert : Alert :=
  { id := "r-off", user_id := "u", device_id := some "d", name := "offline rule",
    alert_type := "offline", metric := "power_w", comparison := "gt", threshold := none,
    window_seconds := some 900, cooldown_seconds := some 300, is_enabled := true }

/-- Fixture: a reading for device `d` at time 0. -/
def exOffReading : Reading :=
  { user_id := "u", device_id := "d", ts := 0, power_w := some 100,
    voltage_v := none, current_a := none, energy_wh := none }

/-- Fixture: state holding the offline rule and the time-0 reading. -/
def exOffDb : DB :=
  { alerts := [exOffAlert], devices := [], readings := [exOffReading],
    events := [], nextEventId := 0 }

/-- Fixture: a scoped threshold rule power_w gt 1000, cooldown 300 s. -/
def exThrAlert : Alert :=
  { id := "r-thr", user_id := "u", device_id := some "d", name := "threshold rule",
    alert_type := "threshold", metric := "power_w", comparison := "gt",
    threshold := some 1000, window_seconds := none, cooldown_seconds := some 300,
    is_enabled := true }

/-- Fixture: a reading power_w = 1500 for device `d` at time 0. -/
def exThrReading : Reading :=
  { user_id := "u", device_id := "d", ts := 0, power_w := some 1500,
    voltage_v := none, current_a := none, energy_wh := none }

/-- Fixture: state holding the threshold rule and the power_w = 1500 reading. -/
def exThrDb : DB :=
  { alerts := [exThrAlert], devices := [], readings := [exThrReading],
    events := [], nextEventId := 0 }

/-- Fixture: a threshold rule with no threshold value set. -/
def exSkipAlert : Alert :=
  { id := "r-skip", user_id := "u", device_id := some "d", name := "no threshold",
    alert_type := "threshold", metric := "power_w", comparison := "gt",
    threshold := none, window_seconds := none, cooldown_seconds := some 300,
    is_enabled := true }

/-- Fixture: state with no readings at all. -/
def exSkipDb : DB :=
  { alerts := [exSkipAlert], devices := [], readings := [], events := [],
    nextEventId := 0 }

/-- Fixture: an unscoped threshold rule (applies to every active device). -/
def exUnscopedAlert : Alert :=
  { id := "r-all", user_id := "u", device_id := none, name := "all devices",
    alert_type := "threshold", metric := "power_w", comparison := "gt",
    threshold := some 1000, window_seconds := none, cooldown_seconds := some 300,
    is_enabled := true }

/-- Fixture: state with two active devices owned by `u`. -/
def exTwoDevDb : DB :=
  { alerts := [exUnscopedAlert],
    devices := [{ id := "d1", user_id := "u", is_active := true },
                { id := "d2", user_id := "u", is_active := true }],
    readings := [], events := [], nextEventId := 0 }

/-- Fixture: an offline rule scoped to a device absent from the registry. -/
def exScopedOffAlert : Alert :=
  { id := "r-ghost", user_id := "u", device_id := some "ghost", name := "ghost offline",
    alert_type := "offline", metric := "power_w", comparison := "gt", threshold := none,
    window_seconds := none, cooldown_seconds := some 300, is_enabled := true }

/-- Fixture: state whose device registry is empty. -/
def exEmptyRegDb : DB :=
  { alerts := [exScopedOffAlert], devices := [], readings := [], events := [],
    nextEventId := 0 }

/-- Fixture: an event that is already acknowledged. -/
def exAckedEvent : AlertEvent :=
  { id := 1, user_id := "u", alert_id := "r", device_id := "d", ts := 0,
    status := "acknowledged", message := "m", metric_value := none,
    acknowledged_at := some 5 }

/-- Fixture: state whose only event is already acknowledged. -/
def exAckedDb : DB :=
  { alerts := [], devices := [], readings := [], events := [exAckedEvent],
    nextEventId := 2 }

/-- Fixture: an event still in `triggered` status. -/
def exUnackedEvent : AlertEvent :=
  { id := 1, user_id := "u", alert_id := "r", device_id := "d", ts := 0,
    status := "triggered", message := "m", metric_value := none,
    acknowledged_at := none }

/-- Fixture: state whose only event is unacknowledged. -/
def exUnackedDb : DB :=
  { alerts := [], devices := [], readings := [], events := [exUnackedEvent],
    nextEventId := 2 }

theorem filter_filter_of_imp {α : Type} {p q : α → Bool}
    (h : ∀ x, p x = true → q x = true) (l : List α) :
    (l.filter q).filter p = l.filter p := by
  induction l with
  | nil => rfl
  | cons x xs ih =>
    cases hq : q x with
    | false =>
      have hp : p x = false := by
        cases hpx : p x with
        | false => rfl
        | true => rw [h x hpx] at hq; cases hq
      simp [List.filter_cons, hq, hp, ih]
    | true =>
      cases hp : p x with
      | false => simp [List.filter_cons, hq, hp, ih]
      | true => simp [List.filter_cons, hq, hp, ih]

theorem mostRecentCooldownTs_restrict (E l : List AlertEvent) (uid aid did : String) :
    mostRecentCooldownTs (E.filter (fun e => e.user_id == uid) ++ l) uid aid did =
      mostRecentCooldownTs (E ++ l) uid aid did := by
  unfold mostRecentCooldownTs
  rw [List.filter_append, List.filter_append, filter_filter_of_imp]
  intro x hx
  cases hu : x.user_id == uid with
  | false => rw [hu] at hx; simp at hx
  | true => rfl

theorem latestReading_filter_user (R : List Reading) (uid did : String) :
    latestReading (R.filter (fun r => r.user_id == uid)) uid did =
      latestReading R uid did := by
  unfold latestReading
  rw [filter_filter_of_imp]
  intro x hx
  cases hu : x.user_id == uid with
  | false => rw [hu] at hx; simp at hx
  | true => rfl

theorem activeDeviceIds_filter_user (D : List Device) (uid : String) :
    activeDeviceIds (D.filter (fun d => d.user_id == uid)) uid =
      activeDeviceIds D uid := by
  unfold activeDeviceIds
  rw [filter_filter_of_imp]
  intro x hx
  cases hu : x.user_id == uid with
  | false => rw [hu] at hx; simp at hx
  | true => rfl

theorem enabledAlerts_restrict (db : DB) (uid : String) :
    enabledAlerts (db.restrict uid) uid = enabledAlerts db uid := by
  unfold enabledAlerts DB.restrict
  apply filter_filter_of_imp
  intro x hx
  cases hu : x.user_id == uid with
  | false => rw [hu] at hx; simp at hx
  | true => rfl

theorem evalPair_suppressed (now : Int) (uid : String) (a : Alert) (did : String)
    (db : DB) (cnt : Nat) (h : isSuppressed db.events now uid a did = true) :
    evalPair now uid a did (db, cnt) = (db, cnt) := by
  simp [evalPair, h]

theorem evalPair_cases (now : Int) (uid : String) (a : Alert) (did : String)
    (db : DB) (cnt : Nat) :
    evalPair now uid a did (db, cnt) = (db, cnt) ∨
    ∃ e : AlertEvent,
      evalPair now uid a did (db, cnt) =
        ({ db with events := db.events ++ [e], nextEventId := db.nextEventId + 1 },
         cnt + 1) ∧
      e.user_id = uid ∧ e.alert_id = a.id ∧ e.device_id = did ∧ e.ts = now ∧
      e.status = "triggered" ∧ e.id = db.nextEventId := by
  cases hs : isSuppressed db.events now uid a did with
  | true => exact Or.inl (evalPair_suppressed now uid a did db cnt hs)
  | false =>
    by_cases hk : a.alert_type = "offline"
    · cases hl : latestReading db.readings uid did with
      | none =>
        refine Or.inr ⟨mkOfflineEvent db now uid a.id did (windowSecs a), ?_,
          rfl, rfl, rfl, rfl, rfl, rfl⟩
        simp [evalPair, hs, hk, hl, insertEvent]
      | some r =>
        by_cases hst : now - r.ts > windowSecs a
        · refine Or.inr ⟨mkOfflineEvent db now uid a.id did (windowSecs a), ?_,
            rfl, rfl, rfl, rfl, rfl, rfl⟩
          simp [evalPair, hs, hk, hl, hst, insertEvent]
        · exact Or.inl (by simp [evalPair, hs, hk, hl, hst])
    · cases hl : latestReading db.readings uid did with
      | none => exact Or.inl (by simp [evalPair, hs, hk, hl])
      | some r =>
        cases hm : r.getMetric a.metric with
        | none => exact Or.inl (by simp [evalPair, hs, hk, hl, hm])
        | some v =>
          cases ht : a.threshold with
          | none => exact Or.inl (by simp [evalPair, hs, hk, hl, hm, ht])
          | some t =>
            cases hc : _compare v a.comparison t with
            | false => exact Or.inl (by simp [evalPair, hs, hk, hl, hm, ht, hc])
            | true =>
              refine Or.inr ⟨mkThresholdEvent db now uid a.id did a.metric a.comparison t v,
                ?_, rfl, rfl, rfl, rfl, rfl, rfl⟩
              simp [evalPair, hs, hk, hl, hm, ht, hc, insertEvent]

theorem runDevices_spec (now : Int) (uid : String) (a : Alert) (dids : List String)
    (db : DB) (cnt : Nat) :
    ∃ l : List AlertEvent,
      dids.foldl (fun st2 did => evalPair now uid a did st2) (db, cnt) =
        ({ db with events := db.events ++ l, nextEventId := db.nextEventId + l.length },
         cnt + l.length) ∧
      ∀ e ∈ l, e.user_id = uid ∧ e.alert_id = a.id ∧ e.status = "triggered" := by
  induction dids generalizing db cnt with
  | nil => exact ⟨[], by simp, by simp⟩
  | cons d ds ih =>
    rcases evalPair_cases now uid a d db cnt with h | ⟨e, h, he1, he2, _, _, he5, _⟩
    · rcases ih db cnt with ⟨l, hl, hmem⟩
      exact ⟨l, by rw [List.foldl_cons, h, hl], hmem⟩
    · rcases ih { db with events := db.events ++ [e], nextEventId := db.nextEventId + 1 }
        (cnt + 1) with ⟨l, hl, hmem⟩
      refine ⟨e :: l, ?_, ?_⟩
      · rw [List.foldl_cons, h, hl]
        simp only [Prod.mk.injEq, DB.mk.injEq, List.append_assoc, List.singleton_append,
          List.length_cons]
        refine ⟨⟨trivial, trivial, trivial, trivial, ?_⟩, ?_⟩ <;> omega
      · intro x hx
        rcases List.mem_cons.mp hx with hx | hx
        · subst hx; exact ⟨he1, he2, he5⟩
        · exact hmem x hx

theorem runRules_cons (now : Int) (uid : String) (a : Alert) (as : List Alert)
    (st : DB × Nat) :
    runRules now uid (a :: as) st =
      runRules now uid as
        ((targetDevices st.1 uid a).foldl (fun st2 did => evalPair now uid a did st2) st) :=
  rfl

theorem runRules_spec (now : Int) (uid : String) (as : List Alert) (db : DB) (cnt : Nat) :
    ∃ l : List AlertEvent,
      runRules now uid as (db, cnt) =
        ({ db with events := db.events ++ l, nextEventId := db.nextEventId + l.length },
         cnt + l.length) ∧
      ∀ e ∈ l, e.user_id = uid ∧ e.status = "triggered" := by
  induction as generalizing db cnt with
  | nil => exact ⟨[], by simp [runRules], by simp⟩
  | cons a as ih =>
    rcases runDevices_spec now uid a (targetDevices db uid a) db cnt with ⟨l1, h1, hm1⟩
    rcases ih { db with events := db.events ++ l1, nextEventId := db.nextEventId + l1.length }
      (cnt + l1.length) with ⟨l2, h2, hm2⟩
    refine ⟨l1 ++ l2, ?_, ?_⟩
    · rw [runRules_cons, h1, h2]
      simp only [Prod.mk.injEq, DB.mk.injEq, List.append_assoc, List.length_append]
      refine ⟨⟨trivial, trivial, trivial, trivial, ?_⟩, ?_⟩ <;> omega
    · intro x hx
      rcases List.mem_append.mp hx with hx | hx
      · exact ⟨(hm1 x hx).1, (hm1 x hx).2.2⟩
      · exact hm2 x hx

/-- C2: `_compare` is a pure, deterministic, total function of
(value, operator, threshold) whose result on the six operators is exactly
gt → v > t, gte → v ≥ t, lt → v < t, lte → v ≤ t, eq → v = t (exact
equality, no tolerance), neq → v ≠ t; evaluating the same triple twice
returns the same boolean (totality and determinism are by construction:
the embedding is a plain function). -/
theorem compare_semantics (v t : Rat) :
    _compare v "gt" t = decide (v > t) ∧
    _compare v "gte" t = decide (v ≥ t) ∧
    _compare v "lt" t = decide (v < t) ∧
    _compare v "lte" t = decide (v ≤ t) ∧
    _compare v "eq" t = decide (v = t) ∧
    _compare v "neq" t = decide (v ≠ t) ∧
    ∀ op : String, _compare v op t = _compare v op t := by
  refine ⟨?_, ?_, ?_, ?_, ?_, ?_, fun op => rfl⟩ <;> simp [_compare]

theorem maxStep_ge (acc : Option Int) (t : Int) :
    ∃ M, maxTsStep acc t = some M ∧ t ≤ M := by
  unfold maxTsStep
  cases acc with
  | none => exact ⟨t, rfl, le_refl t⟩
  | some b =>
    by_cases h : t > b
    · exact ⟨t, by simp [h], le_refl t⟩
    · exact ⟨b, by simp [h], by omega⟩

theorem mostRecentCooldownTs_append_one (E : List AlertEvent) (e : AlertEvent)
    (uid aid did : String) (h1 : e.user_id = uid) (h2 : e.alert_id = aid)
    (h3 : e.device_id = did) (h4 : e.status = "triggered") :
    ∃ M : Int, mostRecentCooldownTs (E ++ [e]) uid aid did = some M ∧ e.ts ≤ M := by
  unfold mostRecentCooldownTs
  rw [List.filter_append]
  have hpe : (e.user_id == uid && e.alert_id == aid && e.device_id == did &&
      (e.status == "triggered" || e.status == "suppressed")) = true := by
    simp [h1, h2, h3, h4]
  simp only [List.filter_cons, hpe, if_true, List.filter_nil, List.foldl_append,
    List.foldl_cons, List.foldl_nil]
  exact maxStep_ge _ e.ts

theorem isSuppressed_after_insert (E : List AlertEvent) (e : AlertEvent) (t2 C : Int)
    (uid : String) (a : Alert) (did : String) (hC : a.cooldown_seconds = some C)
    (he1 : e.user_id = uid) (he2 : e.alert_id = a.id) (he3 : e.device_id = did)
    (he5 : e.status = "triggered") (hlt : t2 - e.ts < C) :
    isSuppressed (E ++ [e]) t2 uid a did = true := by
  rcases mostRecentCooldownTs_append_one E e uid a.id did he1 he2 he3 he5 with ⟨M, hM, hle⟩
  unfold isSuppressed
  rw [hM]
  simp only [cooldownSecs, hC, Option.getD_some, decide_eq_true_eq]
  omega

theorem evaluate_single (db : DB) (now : Int) (uid : String) (a : Alert) (d : String)
    (hE : enabledAlerts db uid = [a]) (hd : a.device_id = some d) :
    (evaluate_alerts db now uid).1 = (evalPair now uid a d (db, 0)).1 ∧
    (evaluate_alerts db now uid).2.1 = (evalPair now uid a d (db, 0)).2 := by
  have ht : targetDevices db uid a = [d] := by simp [targetDevices, hd]
  constructor <;> simp [evaluate_alerts, runRules, hE, ht]

/-- C3: offline rule semantics.  For an unsuppressed (rule, device) pair
of kind `offline` with a schema-valid window (pydantic enforces
`window_seconds ≥ 1` when set, so the Python `or 900` fallback coincides
with "if set else 900"), a `triggered` event is inserted iff no latest
reading exists or the latest reading is strictly older than the window;
age exactly equal to the window does not trigger; the inserted event
carries no metric value. -/
theorem offline_rule_semantics (db : DB) (cnt : Nat) (now : Int) (uid : String)
    (a : Alert) (did : String)
    (hk : a.alert_type = "offline")
    (hw : validWindow a.window_seconds = true)
    (hs : isSuppressed db.events now uid a did = false) :
    (latestReading db.readings uid did = none →
      evalPair now uid a did (db, cnt) =
        (insertEvent db (mkOfflineEvent db now uid a.id did (a.window_seconds.getD 900)),
         cnt + 1)) ∧
    (∀ r, latestReading db.readings uid did = some r →
      (now - r.ts > a.window_seconds.getD 900 →
        evalPair now uid a did (db, cnt) =
          (insertEvent db (mkOfflineEvent db now uid a.id did (a.window_seconds.getD 900)),
           cnt + 1)) ∧
      (now - r.ts ≤ a.window_seconds.getD 900 →
        evalPair now uid a did (db, cnt) = (db, cnt))) ∧
    (mkOfflineEvent db now uid a.id did (a.window_seconds.getD 900)).metric_value = none ∧
    (mkOfflineEvent db now uid a.id did (a.window_seconds.getD 900)).status = "triggered" := by
  have hwin : windowSecs a = a.window_seconds.getD 900 := by
    unfold windowSecs
    cases hww : a.window_seconds with
    | none => rfl
    | some w =>
      rw [hww] at hw
      simp only [validWindow, decide_eq_true_eq] at hw
      have hw0 : ¬ w = 0 := by omega
      simp [hw0]
  rw [← hwin]
  refine ⟨?_, ?_, rfl, rfl⟩
  · intro hl
    simp [evalPair, hs, hk, hl]
  · intro r hl
    constructor
    · intro hgt
      simp [evalPair, hs, hk, hl, hgt]
    · intro hle
      have hngt : ¬ (now - r.ts > windowSecs a) := by omega
      simp [evalPair, hs, hk, hl, hngt]

/-- C3 witness: with the time-0 reading and window 900, evaluating at
time 901 inserts the offline event and evaluating at time 899 inserts
nothing. -/
theorem offline_rule_semantics_witness :
    evalPair 901 "u" exOffAlert "d" (exOffDb, 0) =
      (insertEvent exOffDb (mkOfflineEvent exOffDb 901 "u" "r-off" "d" 900), 1) ∧
    evalPair 899 "u" exOffAlert "d" (exOffDb, 0) = (exOffDb, 0) := by
  have h901 := offline_rule_semantics exOffDb 0 901 "u" exOffAlert "d" rfl (by decide)
    (by decide)
  have h899 := offline_rule_semantics exOffDb 0 899 "u" exOffAlert "d" rfl (by decide)
    (by decide)
  exact ⟨(h901.2.1 exOffReading (by decide)).1 (by decide),
         (h899.2.1 exOffReading (by decide)).2 (by decide)⟩

/-- C4: threshold/anomaly trigger postcondition.  For an unsuppressed
pair of kind `threshold` or `anomaly` (the same code path) with a latest
reading, a set threshold and a non-null metric value, a true comparison
inserts exactly one `triggered` event carrying the observed value and
the message `"<metric> <op> <threshold>"`. -/
theorem threshold_trigger_postcondition (db : DB) (cnt : Nat) (now : Int) (uid : String)
    (a : Alert) (did : String) (r : Reading) (v t : Rat)
    (hk : a.alert_type = "threshold" ∨ a.alert_type = "anomaly")
    (hs : isSuppressed db.events now uid a did = false)
    (hl : latestReading db.readings uid did = some r)
    (ht : a.threshold = some t)
    (hv : r.getMetric a.metric = some v)
    (hc : _compare v a.comparison t = true) :
    evalPair now uid a did (db, cnt) =
      (insertEvent db (mkThresholdEvent db now uid a.id did a.metric a.comparison t v),
       cnt + 1) ∧
    (mkThresholdEvent db now uid a.id did a.metric a.comparison t v).status = "triggered" ∧
    (mkThresholdEvent db now uid a.id did a.metric a.comparison t v).metric_value = some v ∧
    (mkThresholdEvent db now uid a.id did a.metric a.comparison t v).message =
      a.metric ++ " " ++ a.comparison ++ " " ++ renderNum t := by
  have hko : ¬ a.alert_type = "offline" := by rcases hk with h | h <;> simp [h]
  refine ⟨?_, rfl, rfl, rfl⟩
  simp [evalPair, hs, hko, hl, hv, ht, hc]

/-- C4 witness: rule power_w gt 1000 against a reading power_w = 1500
triggers an event with message "power_w gt 1000" and metric value 1500. -/
theorem threshold_trigger_witness :
    evalPair 1 "u" exThrAlert "d" (exThrDb, 0) =
      (insertEvent exThrDb
        (mkThresholdEvent exThrDb 1 "u" "r-thr" "d" "power_w" "gt" 1000 1500), 1) ∧
    (mkThresholdEvent exThrDb 1 "u" "r-thr" "d" "power_w" "gt" 1000 1500).message =
      "power_w gt 1000" ∧
    (mkThresholdEvent exThrDb 1 "u" "r-thr" "d" "power_w" "gt" 1000 1500).metric_value =
      some 1500 := by
  have h := threshold_trigger_postcondition exThrDb 0 1 "u" exThrAlert "d" exThrReading
    1500 1000 (Or.inl rfl) (by decide) (by decide) rfl (by decide) (by decide)
  exact ⟨h.1, by decide, rfl⟩

/-- C5: silent skip on insufficient data.  For a pair of kind `threshold`
or `anomaly`, if no latest reading exists, or the threshold is unset, or
the named metric field on the latest reading is null, the pass leaves the
state and the count unchanged; the embedding is a total function, so no
error is raised on this path. -/
theorem insufficient_data_silent_skip (db : DB) (cnt : Nat) (now : Int) (uid : String)
    (a : Alert) (did : String)
    (hk : a.alert_type = "threshold" ∨ a.alert_type = "anomaly")
    (hskip : latestReading db.readings uid did = none ∨ a.threshold = none ∨
      ∀ r, latestReading db.readings uid did = some r → r.getMetric a.metric = none) :
    evalPair now uid a did (db, cnt) = (db, cnt) := by
  have hko : ¬ a.alert_type = "offline" := by rcases hk with h | h <;> simp [h]
  cases hs : isSuppressed db.events now uid a did with
  | true => exact evalPair_suppressed now uid a did db cnt hs
  | false =>
    cases hl : latestReading db.readings uid did with
    | none => simp [evalPair, hs, hko, hl]
    | some r =>
      rcases hskip with h | h | h
      · rw [h] at hl; cases hl
      · cases hm : r.getMetric a.metric with
        | none => simp [evalPair, hs, hko, hl, hm]
        | some v => simp [evalPair, hs, hko, hl, hm, h]
      · have hm := h r hl
        simp [evalPair, hs, hko, hl, hm]

/-- C5 witness: a threshold rule with no reading at all (and no threshold
set) skips silently. -/
theorem insufficient_data_silent_skip_witness :
    evalPair 5 "u" exSkipAlert "d" (exSkipDb, 0) = (exSkipDb, 0) :=
  insufficient_data_silent_skip exSkipDb 0 5 "u" exSkipAlert "d" (Or.inl rfl)
    (Or.inl (by decide))

/-- C6: the count reported by an evaluation pass equals exactly the
number of events inserted during the pass, each with status `triggered`,
and the response message is "Evaluated alerts. Triggered N events." with
N that count. -/
theorem triggered_count_exact (db : DB) (now : Int) (uid : String) :
    ∃ l : List AlertEvent,
      (evaluate_alerts db now uid).1.events = db.events ++ l ∧
      (∀ e ∈ l, e.status = "triggered") ∧
      (evaluate_alerts db now uid).2.1 = l.length ∧
      (evaluate_alerts db now uid).2.2 =
        "Evaluated alerts. Triggered " ++ toString l.length ++ " events." := by
  rcases runRules_spec now uid (enabledAlerts db uid) db 0 with ⟨l, hl, hm⟩
  refine ⟨l, ?_, fun e he => (hm e he).2, ?_, ?_⟩ <;> simp [evaluate_alerts, hl]

/-- C7: for every rule the target device list is exactly the scoped
device when a device scope is set, else exactly the owner's devices with
active = true; and the cooldown (suppression) state of a device pair
depends only on events of that very device, so each device is evaluated
independently with its own cooldown state. -/
theorem target_device_set (db : DB) (uid : String) (a : Alert) :
    (∀ d, a.device_id = some d → targetDevices db uid a = [d]) ∧
    (a.device_id = none →
      ∀ d, d ∈ targetDevices db uid a ↔
        ∃ dv ∈ db.devices, dv.id = d ∧ dv.user_id = uid ∧ dv.is_active = true) ∧
    (∀ (E : List AlertEvent) (now : Int) (did : String),
      isSuppressed (E.filter (fun e => e.device_id == did)) now uid a did =
        isSuppressed E now uid a did) := by
  refine ⟨?_, ?_, ?_⟩
  · intro d hd
    simp [targetDevices, hd]
  · intro hd d
    simp only [targetDevices, hd, activeDeviceIds, List.mem_map, List.mem_filter,
      Bool.and_eq_true, beq_iff_eq]
    constructor
    · rintro ⟨dv, ⟨hmem, hu, ha⟩, hid⟩
      exact ⟨dv, hmem, hid, hu, by simpa using ha⟩
    · rintro ⟨dv, hmem, hid, hu, ha⟩
      exact ⟨dv, ⟨hmem, hu, by simp [ha]⟩, hid⟩
  · intro E now did
    have hq : mostRecentCooldownTs (E.filter (fun e => e.device_id == did)) uid a.id did =
        mostRecentCooldownTs E uid a.id did := by
      unfold mostRecentCooldownTs
      rw [filter_filter_of_imp]
      intro x hx
      simp only [Bool.and_eq_true, beq_iff_eq] at hx
      simp [hx.1.2]
    unfold isSuppressed
    rw [hq]

/-- C7 witness: the scoped fixture rule targets exactly its device, and
with two active devices the unscoped fixture rule targets both. -/
theorem target_device_set_witness :
    targetDevices exTwoDevDb "u" exThrAlert = ["d"] ∧
    "d1" ∈ targetDevices exTwoDevDb "u" exUnscopedAlert ∧
    "d2" ∈ targetDevices exTwoDevDb "u" exUnscopedAlert := by
  refine ⟨(target_device_set exTwoDevDb "u" exThrAlert).1 "d" rfl, ?_, ?_⟩
  · exact ((target_device_set exTwoDevDb "u" exUnscopedAlert).2.1 rfl "d1").mpr
      ⟨{ id := "d1", user_id := "u", is_active := true }, by decide, rfl, rfl, rfl⟩
  · exact ((target_device_set exTwoDevDb "u" exUnscopedAlert).2.1 rfl "d2").mpr
      ⟨{ id := "d2", user_id := "u", is_active := true }, by decide, rfl, rfl, rfl⟩

/-- C10 (implicit): a rule with a device scope is evaluated on exactly
that device whatever the device registry contains — the registry is
never consulted for the pair (the per-pair evaluation is invariant under
replacing the devices table), so the pair is evaluated even if the
scoped device is inactive or absent; the active-flag filter applies only
to unscoped rules. -/
theorem scoped_rule_ignores_registry (db : DB) (uid : String) (a : Alert) (now : Int)
    (did : String) (c : Nat) (dvs : List Device) :
    (∀ d, a.device_id = some d → targetDevices { db with devices := dvs } uid a = [d]) ∧
    evalPair now uid a did ({ db with devices := dvs }, c) =
      ({ (evalPair now uid a did (db, c)).1 with devices := dvs },
       (evalPair now uid a did (db, c)).2) := by
  constructor
  · intro d hd
    simp [targetDevices, hd]
  · cases hs : isSuppressed db.events now uid a did with
    | true =>
      rw [evalPair_suppressed now uid a did db c hs,
        evalPair_suppressed now uid a did { db with devices := dvs } c hs]
    | false =>
      by_cases hk : a.alert_type = "offline"
      · cases hl : latestReading db.readings uid did with
        | none => simp [evalPair, hs, hk, hl, insertEvent, mkOfflineEvent]
        | some r =>
          by_cases hst : now - r.ts > windowSecs a
          · simp [evalPair, hs, hk, hl, hst, insertEvent, mkOfflineEvent]
          · simp [evalPair, hs, hk, hl, hst]
      · cases hl : latestReading db.readings uid did with
        | none => simp [evalPair, hs, hk, hl]
        | some r =>
          cases hm : r.getMetric a.metric with
          | none => simp [evalPair, hs, hk, hl, hm]
          | some v =>
            cases ht : a.threshold with
            | none => simp [evalPair, hs, hk, hl, hm, ht]
            | some t =>
              cases hc : _compare v a.comparison t with
              | false => simp [evalPair, hs, hk, hl, hm, ht, hc]
              | true => simp [evalPair, hs, hk, hl, hm, ht, hc, insertEvent,
                  mkThresholdEvent]

/-- C10 witness: the ghost-scoped offline rule targets its device with an
empty registry, and its evaluation still triggers (count 1) although the
device is absent from the registry. -/
theorem scoped_rule_ignores_registry_witness :
    targetDevices { exEmptyRegDb with devices := [] } "u" exScopedOffAlert = ["ghost"] ∧
    (evalPair 1000 "u" exScopedOffAlert "ghost" (exEmptyRegDb, 0)).2 = 1 := by
  refine ⟨(scoped_rule_ignores_registry exEmptyRegDb "u" exScopedOffAlert 1000 "ghost" 0
    []).1 "ghost" rfl, by decide⟩

/-- C1: cooldown suppression.  First conjunct: if the most recent
triggered/suppressed event of the (owner, rule, device) triple has
timestamp ts with now - ts < cooldown, the pass changes nothing for the
pair (no event, no count increment).  Second conjunct: a pair evaluation
that inserted an event at t1 is suppressed when re-run at any t2 with
t2 - t1 < C (cooldown C).  Third conjunct: for a single enabled scoped
rule with cooldown C > 0, a pass that triggered once at t1 followed by a
pass at t2 within C seconds yields no second event — exactly one
triggered event, not two. -/
theorem cooldown_suppression :
    (∀ (db : DB) (cnt : Nat) (now ts C : Int) (uid : String) (a : Alert) (did : String),
      a.cooldown_seconds = some C →
      mostRecentCooldownTs db.events uid a.id did = some ts →
      now - ts < C →
      evalPair now uid a did (db, cnt) = (db, cnt)) ∧
    (∀ (db : DB) (cnt : Nat) (t1 t2 C : Int) (uid : String) (a : Alert) (did : String),
      a.cooldown_seconds = some C → 0 < C →
      (evalPair t1 uid a did (db, cnt)).2 = cnt + 1 →
      t2 - t1 < C →
      evalPair t2 uid a did (evalPair t1 uid a did (db, cnt)) =
        evalPair t1 uid a did (db, cnt)) ∧
    (∀ (db : DB) (t1 t2 C : Int) (uid : String) (a : Alert) (d : String),
      a.cooldown_seconds = some C → enabledAlerts db uid = [a] →
      a.device_id = some d → 0 < C →
      (evaluate_alerts db t1 uid).2.1 = 1 →
      t2 - t1 < C →
      (evaluate_alerts (evaluate_alerts db t1 uid).1 t2 uid).2.1 = 0) := by
  have part1 : ∀ (db : DB) (cnt : Nat) (now ts C : Int) (uid : String) (a : Alert)
      (did : String), a.cooldown_seconds = some C →
      mostRecentCooldownTs db.events uid a.id did = some ts →
      now - ts < C →
      evalPair now uid a did (db, cnt) = (db, cnt) := by
    intro db cnt now ts C uid a did hC hq hlt
    apply evalPair_suppressed
    unfold isSuppressed
    rw [hq]
    simp only [cooldownSecs, hC, Option.getD_some, decide_eq_true_eq]
    exact hlt
  have part2 : ∀ (db : DB) (cnt : Nat) (t1 t2 C : Int) (uid : String) (a : Alert)
      (did : String), a.cooldown_seconds = some C → 0 < C →
      (evalPair t1 uid a did (db, cnt)).2 = cnt + 1 →
      t2 - t1 < C →
      evalPair t2 uid a did (evalPair t1 uid a did (db, cnt)) =
        evalPair t1 uid a did (db, cnt) := by
    intro db cnt t1 t2 C uid a did hC hC0 hcount hlt
    rcases evalPair_cases t1 uid a did db cnt with h | ⟨e, h, he1, he2, he3, he4, he5, _⟩
    · rw [h] at hcount
      exact absurd hcount (by omega)
    · rw [h]
      apply evalPair_suppressed
      have : t2 - e.ts < C := by omega
      exact isSuppressed_after_insert db.events e t2 C uid a did hC he1 he2 he3 he5 this
  refine ⟨part1, part2, ?_⟩
  intro db t1 t2 C uid a d hC hE hd hC0 hcnt1 hlt
  rcases evaluate_single db t1 uid a d hE hd with ⟨hdb1, hcnt⟩
  rw [hcnt] at hcnt1
  rcases evalPair_cases t1 uid a d db 0 with h | ⟨e, h, he1, he2, he3, he4, he5, _⟩
  · rw [h] at hcnt1
    exact absurd hcnt1 (by omega)
  · have hdb1e : (evaluate_alerts db t1 uid).1 =
        { db with events := db.events ++ [e], nextEventId := db.nextEventId + 1 } := by
      rw [hdb1, h]
    have hE1 : enabledAlerts (evaluate_alerts db t1 uid).1 uid = [a] := by
      unfold enabledAlerts
      rw [hdb1e]
      exact hE
    rcases evaluate_single (evaluate_alerts db t1 uid).1 t2 uid a d hE1 hd with ⟨_, hcnt2⟩
    rw [hcnt2]
    have hsup : isSuppressed ((evaluate_alerts db t1 uid).1).events t2 uid a d = true := by
      rw [hdb1e]
      have : t2 - e.ts < C := by omega
      exact isSuppressed_after_insert db.events e t2 C uid a d hC he1 he2 he3 he5 this
    rw [evalPair_suppressed t2 uid a d ((evaluate_alerts db t1 uid).1) 0 hsup]

/-- C1 witness: the threshold fixture triggers once at t = 1; a second
pass at t = 101 (within the 300 s cooldown) inserts nothing. -/
theorem cooldown_suppression_witness :
    (evaluate_alerts exThrDb 1 "u").2.1 = 1 ∧
    (evaluate_alerts (evaluate_alerts exThrDb 1 "u").1 101 "u").2.1 = 0 := by
  refine ⟨by decide, ?_⟩
  exact cooldown_suppression.2.2 exThrDb 1 101 300 "u" exThrAlert "d" rfl (by decide) rfl
    (by decide) (by decide) (by decide)

theorem filter_length_ne_zero {α : Type} (P : α → Bool) (l : List α) :
    (l.filter P).length ≠ 0 ↔ ∃ e ∈ l, P e = true := by
  constructor
  · intro h
    cases hf : l.filter P with
    | nil => rw [hf] at h; simp at h
    | cons x xs =>
      have hx : x ∈ l.filter P := by rw [hf]; exact List.mem_cons_self x xs
      rcases List.mem_filter.mp hx with ⟨hxl, hxp⟩
      exact ⟨x, hxl, hxp⟩
  · rintro ⟨e, hel, hep⟩ h
    have hmem : e ∈ l.filter P := List.mem_filter.mpr ⟨hel, hep⟩
    rw [List.length_eq_zero] at h
    rw [h] at hmem
    simp at hmem

theorem map_ite_id {α : Type} (f : α → α) (P : α → Bool) (l : List α)
    (h : ∀ x ∈ l, P x = false) : l.map (fun x => if P x then f x else x) = l := by
  induction l with
  | nil => rfl
  | cons x xs ih =>
    simp [List.map_cons, h x (List.mem_cons_self x xs),
      ih (fun y hy => h y (List.mem_cons_of_mem x hy))]

theorem acknowledge_db_eq (db : DB) (now : Int) (eid : Nat) (uid : String) :
    (acknowledge_event db now eid uid).1 = { db with events := db.events.map (fun e =>
      if e.id == eid && e.user_id == uid then
        { e with status := "acknowledged", acknowledged_at := some now }
      else e) } := by
  unfold acknowledge_event
  by_cases h : (db.events.filter (fun e => e.id == eid && e.user_id == uid)).length = 0 <;>
    simp [h]

theorem acknowledge_events_eq (db : DB) (now : Int) (eid : Nat) (uid : String) :
    (acknowledge_event db now eid uid).1.events = db.events.map (fun e =>
      if e.id == eid && e.user_id == uid then
        { e with status := "acknowledged", acknowledged_at := some now }
      else e) := by
  rw [acknowledge_db_eq]

theorem acknowledge_found (db : DB) (now : Int) (eid : Nat) (uid : String)
    (hex : ∃ e ∈ db.events, e.id = eid ∧ e.user_id = uid) :
    (acknowledge_event db now eid uid).2 = AckResult.ok "Acknowledged" := by
  have haff : (db.events.filter (fun e => e.id == eid && e.user_id == uid)).length ≠ 0 := by
    rw [filter_length_ne_zero]
    rcases hex with ⟨e, he, h1, h2⟩
    exact ⟨e, he, by simp [h1, h2]⟩
  unfold acknowledge_event
  simp [haff]

/-- C8 counterexample: in a state whose only event is already in status
`acknowledged`, acknowledging it again returns the success message, not a
rejection or a not-found — the claim that a second acknowledge is
rejected or reported not-found fails on the code, whose UPDATE matches on
(id, owner) only, with no status predicate. -/
theorem ack_second_time_not_rejected :
    exAckedDb.events.map (fun e => e.status) = ["acknowledged"] ∧
    (acknowledge_event exAckedDb 10 1 "u").2 = AckResult.ok "Acknowledged" ∧
    (acknowledge_event exAckedDb 10 1 "u").2 ≠ AckResult.notFound "Event not found" := by
  decide

/-- C8 amended: acknowledging an event sets its status to `acknowledged`
and `acknowledged_at` to now for every row matching (eventId, ownerId),
and reports not-found exactly when no row matches; the matching predicate
ignores the current status, so acknowledging an already-acknowledged
event a second time succeeds again (refreshing `acknowledged_at`) rather
than being rejected or reported not-found. -/
theorem acknowledge_semantics (db : DB) (now : Int) (eid : Nat) (uid : String) :
    ((∃ e ∈ db.events, e.id = eid ∧ e.user_id = uid) →
      (acknowledge_event db now eid uid).2 = AckResult.ok "Acknowledged") ∧
    ((¬ ∃ e ∈ db.events, e.id = eid ∧ e.user_id = uid) →
      (acknowledge_event db now eid uid).2 = AckResult.notFound "Event not found" ∧
      (acknowledge_event db now eid uid).1 = db) ∧
    (∀ e ∈ db.events,
      (e.id = eid ∧ e.user_id = uid →
        { e with status := "acknowledged", acknowledged_at := some now } ∈
          (acknowledge_event db now eid uid).1.events) ∧
      (¬ (e.id = eid ∧ e.user_id = uid) →
        e ∈ (acknowledge_event db now eid uid).1.events)) ∧
    ((∃ e ∈ db.events, e.id = eid ∧ e.user_id = uid) → ∀ t2 : Int,
      (acknowledge_event (acknowledge_event db now eid uid).1 t2 eid uid).2 =
        AckResult.ok "Acknowledged") := by
  refine ⟨acknowledge_found db now eid uid, ?_, ?_, ?_⟩
  · intro hnex
    have haff : (db.events.filter (fun e => e.id == eid && e.user_id == uid)).length = 0 := by
      by_contra h
      rcases (filter_length_ne_zero _ _).mp h with ⟨e, he, hp⟩
      simp only [Bool.and_eq_true, beq_iff_eq] at hp
      exact hnex ⟨e, he, hp.1, hp.2⟩
    have hfalse : ∀ x ∈ db.events, (x.id == eid && x.user_id == uid) = false := by
      intro x hx
      by_contra h
      have hxt : (x.id == eid && x.user_id == uid) = true := by
        cases hb : (x.id == eid && x.user_id == uid) with
        | false => exact absurd hb h
        | true => rfl
      have : x ∈ db.events.filter (fun e => e.id == eid && e.user_id == uid) :=
        List.mem_filter.mpr ⟨hx, hxt⟩
      rw [List.length_eq_zero] at haff
      rw [haff] at this
      simp at this
    constructor
    · unfold acknowledge_event
      simp [haff]
    · have hmap : db.events.map (fun e =>
          if e.id == eid && e.user_id == uid then
            { e with status := "acknowledged", acknowledged_at := some now }
          else e) = db.events :=
        map_ite_id _ _ db.events hfalse
      rw [acknowledge_db_eq, hmap]
  · intro e he
    constructor
    · rintro ⟨h1, h2⟩
      rw [acknowledge_events_eq]
      exact List.mem_map.mpr ⟨e, he, by simp [h1, h2]⟩
    · intro h
      cases hb : (e.id == eid && e.user_id == uid) with
      | true =>
        exfalso
        apply h
        simpa [Bool.and_eq_true, beq_iff_eq] using hb
      | false =>
        rw [acknowledge_events_eq]
        exact List.mem_map.mpr ⟨e, he, by simp [hb]⟩
  · intro hex t2
    apply acknowledge_found
    rcases hex with ⟨e, he, h1, h2⟩
    refine ⟨{ e with status := "acknowledged", acknowledged_at := some now }, ?_, h1, h2⟩
    rw [acknowledge_events_eq]
    exact List.mem_map.mpr ⟨e, he, by simp [h1, h2]⟩

/-- C8 amended witness: acknowledging the unacknowledged fixture event
succeeds, and acknowledging it a second time succeeds again. -/
theorem acknowledge_semantics_witness :
    (acknowledge_event exUnackedDb 7 1 "u").2 = AckResult.ok "Acknowledged" ∧
    (acknowledge_event (acknowledge_event exUnackedDb 7 1 "u").1 9 1 "u").2 =
      AckResult.ok "Acknowledged" := by
  have h := acknowledge_semantics exUnackedDb 7 1 "u"
  exact ⟨h.1 ⟨exUnackedEvent, by decide, rfl, rfl⟩,
         h.2.2.2 ⟨exUnackedEvent, by decide, rfl, rfl⟩ 9⟩

theorem evalPair_couple (now : Int) (uid : String) (a : Alert) (did : String)
    (A1 A2 : List Alert) (D1 D2 : List Device) (R : List Reading)
    (E l : List AlertEvent) (n c : Nat) :
    ∃ t : List AlertEvent,
      evalPair now uid a did
          ({ alerts := A1, devices := D1, readings := R, events := E ++ l,
             nextEventId := n }, c) =
        ({ alerts := A1, devices := D1, readings := R, events := E ++ (l ++ t),
           nextEventId := n + t.length }, c + t.length) ∧
      evalPair now uid a did
          ({ alerts := A2, devices := D2, readings := R.filter (fun r => r.user_id == uid),
             events := E.filter (fun e => e.user_id == uid) ++ l, nextEventId := n }, c) =
        ({ alerts := A2, devices := D2, readings := R.filter (fun r => r.user_id == uid),
           events := E.filter (fun e => e.user_id == uid) ++ (l ++ t),
           nextEventId := n + t.length }, c + t.length) ∧
      ∀ e ∈ t, e.user_id = uid := by
  have hsup : isSuppressed (E.filter (fun e => e.user_id == uid) ++ l) now uid a did =
      isSuppressed (E ++ l) now uid a did := by
    unfold isSuppressed
    rw [mostRecentCooldownTs_restrict]
  have hlr : latestReading (R.filter (fun r => r.user_id == uid)) uid did =
      latestReading R uid did := latestReading_filter_user R uid did
  cases hs : isSuppressed (E ++ l) now uid a did with
  | true =>
    have hs2 : isSuppressed (E.filter (fun e => e.user_id == uid) ++ l) now uid a did =
        true := by rw [hsup]; exact hs
    refine ⟨[], ?_, ?_, by simp⟩
    · rw [evalPair_suppressed now uid a did _ c hs]
      simp
    · rw [evalPair_suppressed now uid a did _ c hs2]
      simp
  | false =>
    have hs2 : isSuppressed (E.filter (fun e => e.user_id == uid) ++ l) now uid a did =
        false := by rw [hsup]; exact hs
    by_cases hk : a.alert_type = "offline"
    · cases hl : latestReading R uid did with
      | none =>
        have hl2 : latestReading (R.filter (fun r => r.user_id == uid)) uid did = none := by
          rw [hlr]; exact hl
        refine ⟨[mkOfflineEvent
            { alerts := A1, devices := D1, readings := R, events := E ++ l,
              nextEventId := n } now uid a.id did (windowSecs a)],
          ?_, ?_, by simp [mkOfflineEvent]⟩
        · simp [evalPair, hs, hk, hl, insertEvent, mkOfflineEvent, List.append_assoc]
        · simp [evalPair, hs2, hk, hl2, insertEvent, mkOfflineEvent, List.append_assoc]
      | some r =>
        have hl2 : latestReading (R.filter (fun r => r.user_id == uid)) uid did = some r := by
          rw [hlr]; exact hl
        by_cases hst : now - r.ts > windowSecs a
        · refine ⟨[mkOfflineEvent
              { alerts := A1, devices := D1, readings := R, events := E ++ l,
                nextEventId := n } now uid a.id did (windowSecs a)],
            ?_, ?_, by simp [mkOfflineEvent]⟩
          · simp [evalPair, hs, hk, hl, hst, insertEvent, mkOfflineEvent, List.append_assoc]
          · simp [evalPair, hs2, hk, hl2, hst, insertEvent, mkOfflineEvent, List.append_assoc]
        · refine ⟨[], ?_, ?_, by simp⟩
          · simp [evalPair, hs, hk, hl, hst]
          · simp [evalPair, hs2, hk, hl2, hst]
    · cases hl : latestReading R uid did with
      | none =>
        have hl2 : latestReading (R.filter (fun r => r.user_id == uid)) uid did = none := by
          rw [hlr]; exact hl
        refine ⟨[], ?_, ?_, by simp⟩
        · simp [evalPair, hs, hk, hl]
        · simp [evalPair, hs2, hk, hl2]
      | some r =>
        have hl2 : latestReading (R.filter (fun r => r.user_id == uid)) uid did = some r := by
          rw [hlr]; exact hl
        cases hm : r.getMetric a.metric with
        | none =>
          refine ⟨[], ?_, ?_, by simp⟩
          · simp [evalPair, hs, hk, hl, hm]
          · simp [evalPair, hs2, hk, hl2, hm]
        | some v =>
          cases ht : a.threshold with
          | none =>
            refine ⟨[], ?_, ?_, by simp⟩
            · simp [evalPair, hs, hk, hl, hm, ht]
            · simp [evalPair, hs2, hk, hl2, hm, ht]
          | some th =>
            cases hc : _compare v a.comparison th with
            | false =>
              refine ⟨[], ?_, ?_, by simp⟩
              · simp [evalPair, hs, hk, hl, hm, ht, hc]
              · simp [evalPair, hs2, hk, hl2, hm, ht, hc]
            | true =>
              refine ⟨[mkThresholdEvent
                  { alerts := A1, devices := D1, readings := R, events := E ++ l,
                    nextEventId := n } now uid a.id did a.metric a.comparison th v],
                ?_, ?_, by simp [mkThresholdEvent]⟩
              · simp [evalPair, hs, hk, hl, hm, ht, hc, insertEvent, mkThresholdEvent,
                  List.append_assoc]
              · simp [evalPair, hs2, hk, hl2, hm, ht, hc, insertEvent, mkThresholdEvent,
                  List.append_assoc]

theorem runDevices_couple (now : Int) (uid : String) (a : Alert) (dids : List String)
    (A1 A2 : List Alert) (D1 D2 : List Device) (R : List Reading)
    (E : List AlertEvent) :
    ∀ (l : List AlertEvent) (n c : Nat),
    ∃ t : List AlertEvent,
      dids.foldl (fun st2 did => evalPair now uid a did st2)
          ({ alerts := A1, devices := D1, readings := R, events := E ++ l,
             nextEventId := n }, c) =
        ({ alerts := A1, devices := D1, readings := R, events := E ++ (l ++ t),
           nextEventId := n + t.length }, c + t.length) ∧
      dids.foldl (fun st2 did => evalPair now uid a did st2)
          ({ alerts := A2, devices := D2, readings := R.filter (fun r => r.user_id == uid),
             events := E.filter (fun e => e.user_id == uid) ++ l, nextEventId := n }, c) =
        ({ alerts := A2, devices := D2, readings := R.filter (fun r => r.user_id == uid),
           events := E.filter (fun e => e.user_id == uid) ++ (l ++ t),
           nextEventId := n + t.length }, c + t.length) ∧
      ∀ e ∈ t, e.user_id = uid := by
  induction dids with
  | nil =>
    intro l n c
    refine ⟨[], by simp, by simp, by simp⟩
  | cons d ds ih =>
    intro l n c
    rcases evalPair_couple now uid a d A1 A2 D1 D2 R E l n c with ⟨t0, h1, h2, hm0⟩
    rcases ih (l ++ t0) (n + t0.length) (c + t0.length) with ⟨t1, g1, g2, hm1⟩
    refine ⟨t0 ++ t1, ?_, ?_, ?_⟩
    · rw [List.foldl_cons, h1, g1]
      simp only [Prod.mk.injEq, DB.mk.injEq, List.append_assoc, List.length_append]
      refine ⟨⟨trivial, trivial, trivial, trivial, ?_⟩, ?_⟩ <;> omega
    · rw [List.foldl_cons, h2, g2]
      simp only [Prod.mk.injEq, DB.mk.injEq, List.append_assoc, List.length_append]
      refine ⟨⟨trivial, trivial, trivial, trivial, ?_⟩, ?_⟩ <;> omega
    · intro e he
      rcases List.mem_append.mp he with h | h
      exacts [hm0 e h, hm1 e h]

theorem runRules_couple (now : Int) (uid : String) (as : List Alert)
    (A1 A2 : List Alert) (D : List Device) (R : List Reading) (E : List AlertEvent) :
    ∀ (l : List AlertEvent) (n c : Nat),
    ∃ t : List AlertEvent,
      runRules now uid as
          ({ alerts := A1, devices := D, readings := R, events := E ++ l,
             nextEventId := n }, c) =
        ({ alerts := A1, devices := D, readings := R, events := E ++ (l ++ t),
           nextEventId := n + t.length }, c + t.length) ∧
      runRules now uid as
          ({ alerts := A2, devices := D.filter (fun d => d.user_id == uid),
             readings := R.filter (fun r => r.user_id == uid),
             events := E.filter (fun e => e.user_id == uid) ++ l, nextEventId := n }, c) =
        ({ alerts := A2, devices := D.filter (fun d => d.user_id == uid),
           readings := R.filter (fun r => r.user_id == uid),
           events := E.filter (fun e => e.user_id == uid) ++ (l ++ t),
           nextEventId := n + t.length }, c + t.length) ∧
      ∀ e ∈ t, e.user_id = uid := by
  induction as with
  | nil =>
    intro l n c
    refine ⟨[], by simp [runRules], by simp [runRules], by simp⟩
  | cons a as ih =>
    intro l n c
    have hdev : targetDevices
        { alerts := A2, devices := D.filter (fun d => d.user_id == uid),
          readings := R.filter (fun r => r.user_id == uid),
          events := E.filter (fun e => e.user_id == uid) ++ l, nextEventId := n } uid a =
        targetDevices
        { alerts := A1, devices := D, readings := R, events := E ++ l,
          nextEventId := n } uid a := by
      unfold targetDevices
      cases a.device_id with
      | some d => rfl
      | none => exact activeDeviceIds_filter_user D uid
    rcases runDevices_couple now uid a
        (targetDevices
          { alerts := A1, devices := D, readings := R, events := E ++ l,
            nextEventId := n } uid a)
        A1 A2 D (D.filter (fun d => d.user_id == uid)) R E l n c
      with ⟨t0, h1, h2, hm0⟩
    rcases ih (l ++ t0) (n + t0.length) (c + t0.length) with ⟨t1, g1, g2, hm1⟩
    refine ⟨t0 ++ t1, ?_, ?_, ?_⟩
    · rw [runRules_cons, h1, g1]
      simp only [Prod.mk.injEq, DB.mk.injEq, List.append_assoc, List.length_append]
      refine ⟨⟨trivial, trivial, trivial, trivial, ?_⟩, ?_⟩ <;> omega
    · rw [runRules_cons, hdev, h2, g2]
      simp only [Prod.mk.injEq, DB.mk.injEq, List.append_assoc, List.length_append]
      refine ⟨⟨trivial, trivial, trivial, trivial, ?_⟩, ?_⟩ <;> omega
    · intro e he
      rcases List.mem_append.mp he with h | h
      exacts [hm0 e h, hm1 e h]

/-- C9: ownership isolation.  An evaluation pass for owner `uid` produces
the same triggered count, the same response message, and the very same
list of inserted events whether it runs on the full state or on the state
restricted to `uid`'s rows (so the outcome is unaffected by other owners'
rules, devices, readings and events, even with colliding names or device
identifiers — all queries conjoin the owner id); and every inserted event
is owned by `uid`. -/
theorem ownership_isolation (db : DB) (now : Int) (uid : String) :
    (evaluate_alerts db now uid).2.1 = (evaluate_alerts (db.restrict uid) now uid).2.1 ∧
    (evaluate_alerts db now uid).2.2 = (evaluate_alerts (db.restrict uid) now uid).2.2 ∧
    ∃ l : List AlertEvent,
      (evaluate_alerts db now uid).1.events = db.events ++ l ∧
      (evaluate_alerts (db.restrict uid) now uid).1.events =
        (db.restrict uid).events ++ l ∧
      ∀ e ∈ l, e.user_id = uid := by
  obtain ⟨A, D, R, E, n⟩ := db
  have hE : enabledAlerts (DB.restrict ⟨A, D, R, E, n⟩ uid) uid =
      enabledAlerts ⟨A, D, R, E, n⟩ uid := enabledAlerts_restrict _ uid
  rcases runRules_couple now uid (enabledAlerts ⟨A, D, R, E, n⟩ uid) A
      (A.filter (fun a => a.user_id == uid)) D R E [] n 0 with ⟨t, h1, h2, hm⟩
  rw [List.append_nil, List.nil_append] at h1
  rw [List.append_nil, List.nil_append] at h2
  have e1 : evaluate_alerts ⟨A, D, R, E, n⟩ now uid =
      (({ alerts := A, devices := D, readings := R, events := E ++ t,
          nextEventId := n + t.length } : DB), 0 + t.length,
       "Evaluated alerts. Triggered " ++ toString (0 + t.length) ++ " events.") := by
    unfold evaluate_alerts
    rw [h1]
  have e2 : evaluate_alerts (DB.restrict ⟨A, D, R, E, n⟩ uid) now uid =
      (({ alerts := A.filter (fun a => a.user_id == uid),
          devices := D.filter (fun d => d.user_id == uid),
          readings := R.filter (fun r => r.user_id == uid),
          events := E.filter (fun e => e.user_id == uid) ++ t,
          nextEventId := n + t.length } : DB), 0 + t.length,
       "Evaluated alerts. Triggered " ++ toString (0 + t.length) ++ " events.") := by
    unfold evaluate_alerts
    rw [hE]
    simp only [DB.restrict]
    rw [h2]
  rw [e1, e2]
  exact ⟨rfl, rfl, t, rfl, by simp [DB.restrict], hm⟩

end AlertsRouter
